import Mathlib

/-!
Shallow embedding of the scoring pipeline of `backend_server.py`
(class `MLFakeAccountDetector`, the `/api/analyze` route and the
`BlockchainManager` call it makes).

Conventions:
* Python floats are modelled as rationals (`ℚ`).
* `account_data` is a JSON dictionary with optional keys; it is modelled
  as a structure of `Option` fields (`ProfileRecord`).
* The calls to `np.random.randint` / `np.random.uniform` inside
  `extract_features` are modelled by passing the drawn values in
  explicitly (`RandomDefaults`); the predicate `DefaultsValid` records
  the value ranges those numpy primitives guarantee
  (`randint(lo, hi)` yields an integer in `[lo, hi)`,
  `uniform(lo, hi)` a real in `[lo, hi)`).
* The fitted sklearn artifacts (`StandardScaler.transform`,
  `TfidfVectorizer.transform`, `RandomForestClassifier.predict_proba`)
  are external-library black boxes; they are modelled as an abstract
  record of total functions (`FittedArtifacts`).  A random-forest
  `predict_proba` row for two classes is `[1 - p, p]` where `p` is the
  positive-class probability, which is how `predict_proba` is embedded.
-/

/-- The JSON payload handed to `extract_features` / `predict_fake_probability`.
Field names follow the dictionary keys the Python code reads
(`account_data.get(...)`); every field is optional. -/
structure ProfileRecord where
  username : Option String
  bio : Option String
  profile_picture : Option Bool
  followers : Option ℚ
  following : Option ℚ
  posts : Option ℚ
  account_age_days : Option ℚ
  verified : Option Bool
  engagement_rate : Option ℚ
  posting_frequency : Option ℚ
  deriving DecidableEq

/-- One value for each pseudo-random draw that `extract_features` may
perform for a missing field, in source order: `np.random.randint(0, 1000)`,
`np.random.randint(0, 2000)`, `np.random.randint(0, 100)`,
`np.random.randint(1, 365)`, `np.random.uniform(0, 0.1)`,
`np.random.uniform(0, 20)`. -/
structure RandomDefaults where
  followers : ℤ
  following : ℤ
  posts : ℤ
  account_age_days : ℤ
  engagement_rate : ℚ
  posting_frequency : ℚ
  deriving DecidableEq

/-- The ranges `np.random.randint` / `np.random.uniform` guarantee for the
draws appearing in `extract_features` (half-open intervals). -/
def DefaultsValid (d : RandomDefaults) : Prop :=
  0 ≤ d.followers ∧ d.followers < 1000 ∧
  0 ≤ d.following ∧ d.following < 2000 ∧
  0 ≤ d.posts ∧ d.posts < 100 ∧
  1 ≤ d.account_age_days ∧ d.account_age_days < 365 ∧
  0 ≤ d.engagement_rate ∧ d.engagement_rate < 1/10 ∧
  0 ≤ d.posting_frequency ∧ d.posting_frequency < 20

instance (d : RandomDefaults) : Decidable (DefaultsValid d) := by
  unfold DefaultsValid; infer_instance

/-- The `features` dictionary built by `extract_features`, with the eleven
keys the code assigns, all numeric. -/
structure Features where
  username_length : ℚ
  username_digits : ℚ
  bio_length : ℚ
  profile_pic : ℚ
  followers : ℚ
  following : ℚ
  posts : ℚ
  account_age_days : ℚ
  verified : ℚ
  engagement_rate : ℚ
  posting_frequency : ℚ
  deriving DecidableEq

/-- The fixed feature order used both at training time
(`feature_columns` in `train_model`) and at scoring time (the
`feature_vector` literal in `predict_fake_probability`). -/
def Features.toList (f : Features) : List ℚ :=
  [f.username_length, f.username_digits, f.bio_length, f.profile_pic,
   f.followers, f.following, f.posts, f.account_age_days,
   f.verified, f.engagement_rate, f.posting_frequency]

/-- `MLFakeAccountDetector.extract_features`: builds the feature dictionary
from the request payload and returns it with the raw bio text.
Missing numeric fields take the pseudo-random draw from `rnd`;
`profile_pic` is `1` exactly when `account_data.get('profile_picture')`
is truthy; `verified` defaults to `0`. -/
def extract_features (account_data : ProfileRecord) (rnd : RandomDefaults) :
    Features × String :=
  let username := account_data.username.getD ""
  let bio := account_data.bio.getD ""
  ({ username_length := (username.length : ℚ)
   , username_digits := ((username.toList.countP (fun c => c.isDigit)) : ℚ)
   , bio_length := (bio.length : ℚ)
   , profile_pic := if account_data.profile_picture = some true then 1 else 0
   , followers := account_data.followers.getD (rnd.followers : ℚ)
   , following := account_data.following.getD (rnd.following : ℚ)
   , posts := account_data.posts.getD (rnd.posts : ℚ)
   , account_age_days := account_data.account_age_days.getD (rnd.account_age_days : ℚ)
   , verified := match account_data.verified with
                 | some true => 1
                 | some false => 0
                 | none => 0
   , engagement_rate := account_data.engagement_rate.getD rnd.engagement_rate
   , posting_frequency := account_data.posting_frequency.getD rnd.posting_frequency
   }, bio)

/-- `MLFakeAccountDetector.get_risk_level`. -/
def get_risk_level (probability : ℚ) : String :=
  if probability ≥ 7/10 then "high"
  else if probability ≥ 4/10 then "medium"
  else "low"

/-- Numeric rank of a risk tier, used to state monotonicity of the mapper
(low < medium < high). -/
def risk_tier (level : String) : ℕ :=
  if level = "high" then 2 else if level = "medium" then 1 else 0

/-- C1: the risk mapper returns high for p ≥ 0.7, medium for
0.4 ≤ p < 0.7, low for p < 0.4; the four boundary probes of the spec
evaluate as stated; and the tier is monotone non-decreasing in p. -/
theorem C1_risk_mapper_spec :
    (∀ p : ℚ,
      (7/10 ≤ p → get_risk_level p = "high") ∧
      (4/10 ≤ p ∧ p < 7/10 → get_risk_level p = "medium") ∧
      (p < 4/10 → get_risk_level p = "low")) ∧
    get_risk_level (4/10) = "medium" ∧
    get_risk_level (39999/100000) = "low" ∧
    get_risk_level (7/10) = "high" ∧
    get_risk_level (69999/100000) = "medium" ∧
    (∀ p q : ℚ, p ≤ q →
      risk_tier (get_risk_level p) ≤ risk_tier (get_risk_level q)) := by
  refine ⟨fun p => ⟨?_, ?_, ?_⟩, by norm_num [get_risk_level], by
    norm_num [get_risk_level], by norm_num [get_risk_level], by
    norm_num [get_risk_level], fun p q hpq => ?_⟩
  · intro h
    simp [get_risk_level, h]
  · rintro ⟨h4, h7⟩
    simp [get_risk_level, not_le.mpr h7, h4]
  · intro h
    have h7 : ¬ (7/10 : ℚ) ≤ p := by linarith
    have h4 : ¬ (4/10 : ℚ) ≤ p := by linarith
    simp [get_risk_level, h7, h4]
  · by_cases h7p : (7/10 : ℚ) ≤ p
    · have h7q : (7/10 : ℚ) ≤ q := le_trans h7p hpq
      simp [get_risk_level, risk_tier, ge_iff_le, h7p, h7q]
    · by_cases h4p : (4/10 : ℚ) ≤ p
      · by_cases h7q : (7/10 : ℚ) ≤ q
        · simp [get_risk_level, risk_tier, ge_iff_le, h7p, h4p, h7q]
        · have h4q : (4/10 : ℚ) ≤ q := le_trans h4p hpq
          simp [get_risk_level, risk_tier, ge_iff_le, h7p, h4p, h7q, h4q]
      · have hp : risk_tier (get_risk_level p) = 0 := by
          simp [get_risk_level, risk_tier, ge_iff_le, h7p, h4p]
        rw [hp]
        exact Nat.zero_le _

/-- Witness for C1 at concrete probabilities. -/
theorem C1_risk_mapper_spec_witness :
    get_risk_level (8/10) = "high" ∧
    get_risk_level (1/2) = "medium" ∧
    get_risk_level (1/10) = "low" ∧
    risk_tier (get_risk_level (1/10)) ≤ risk_tier (get_risk_level (8/10)) :=
  ⟨(C1_risk_mapper_spec.1 (8/10)).1 (by norm_num),
   (C1_risk_mapper_spec.1 (1/2)).2.1 (by norm_num),
   (C1_risk_mapper_spec.1 (1/10)).2.2 (by norm_num),
   C1_risk_mapper_spec.2.2.2.2.2 (1/10) (8/10) (by norm_num)⟩

/-- Whether the first character list is a prefix of the second. -/
def chars_prefix : List Char → List Char → Bool
  | [], _ => true
  | _ :: _, [] => false
  | c :: cs, d :: ds => c = d && chars_prefix cs ds

/-- Whether the first character list occurs contiguously in the second. -/
def chars_substring : List Char → List Char → Bool
  | needle, [] => needle.isEmpty
  | needle, d :: ds => chars_prefix needle (d :: ds) || chars_substring needle ds

/-- Python's `needle in haystack` on strings: contiguous-substring test. -/
def substring_mem (needle haystack : String) : Bool :=
  chars_substring needle.toList haystack.toList

/-- Python's `str.lower`, character by character. -/
def str_lower (s : String) : String :=
  String.mk (s.toList.map Char.toLower)

/-- The `suspicious_keywords` literal in `get_feature_explanation`. -/
def suspicious_keywords : List String :=
  ["follow back", "follow4follow", "dm for collab"]

/-- `MLFakeAccountDetector.get_feature_explanation`: six rule checks in
source order, each appending at most one string. -/
def get_feature_explanation (features : Features) (bio_text : String) :
    List String :=
  (if features.username_digits ≥ 4 then ["Username contains many digits"] else []) ++
  (if features.bio_length < 20 then ["Bio is very short or empty"] else []) ++
  (if features.profile_pic = 0 then ["No profile picture"] else []) ++
  (if features.account_age_days < 30 then ["Recently created account"] else []) ++
  (if features.following > 0 ∧
      (features.followers / features.following > 5 ∨
       features.followers / features.following < 1/10)
   then ["Unusual follower-to-following ratio"] else []) ++
  (if suspicious_keywords.any (fun keyword => substring_mem keyword (str_lower bio_text))
   then ["Bio contains suspicious keywords"] else [])

/-- C3: the extracted `profile_pic` feature is 1 exactly when the optional
boolean picture field of the record is present and true, and 0 otherwise. -/
theorem C3_profile_pic_feature (p : ProfileRecord) (d : RandomDefaults) :
    (p.profile_picture = some true → (extract_features p d).1.profile_pic = 1) ∧
    (p.profile_picture ≠ some true → (extract_features p d).1.profile_pic = 0) := by
  constructor
  · intro h
    simp [extract_features, h]
  · intro h
    simp [extract_features, h]

/-- Witness for C3: a record with the picture flag set, and one without. -/
theorem C3_profile_pic_feature_witness :
    (extract_features
      ⟨some "u", none, some true, none, none, none, none, none, none, none⟩
      ⟨0, 0, 0, 1, 0, 0⟩).1.profile_pic = 1 ∧
    (extract_features
      ⟨some "u", none, some false, none, none, none, none, none, none, none⟩
      ⟨0, 0, 0, 1, 0, 0⟩).1.profile_pic = 0 :=
  ⟨(C3_profile_pic_feature _ _).1 rfl,
   (C3_profile_pic_feature _ _).2 (by decide)⟩

/-- The profile of the spec's explanation-ordering scenario: username
"user1234", empty bio, no profile picture, account_age_days 5,
followers 1, following 100. -/
def c4_profile : ProfileRecord :=
  { username := some "user1234"
  , bio := some ""
  , profile_picture := some false
  , followers := some 1
  , following := some 100
  , posts := none
  , account_age_days := some 5
  , verified := none
  , engagement_rate := none
  , posting_frequency := none }

/-- One explanation rule contributes its string or nothing. -/
theorem rule_sublist {c : Prop} [Decidable c] (x : String) :
    List.Sublist (if c then [x] else []) [x] := by
  split
  · exact List.Sublist.refl _
  · exact List.nil_sublist _

/-- C4: the explanation is always an in-order selection from the six rule
strings (fixed significant order, each rule contributing at most one
string), and on the spec's scenario profile it is exactly the five flags
of rules 1–5 in order (rule 6 does not fire), for every choice of the
pseudo-random draws of the unfilled fields. -/
theorem C4_explanation_order :
    (∀ (f : Features) (b : String),
      List.Sublist (get_feature_explanation f b)
        ["Username contains many digits", "Bio is very short or empty",
         "No profile picture", "Recently created account",
         "Unusual follower-to-following ratio",
         "Bio contains suspicious keywords"]) ∧
    (∀ d : RandomDefaults,
      get_feature_explanation (extract_features c4_profile d).1
        (extract_features c4_profile d).2 =
      ["Username contains many digits", "Bio is very short or empty",
       "No profile picture", "Recently created account",
       "Unusual follower-to-following ratio"]) := by
  constructor
  · intro f b
    unfold get_feature_explanation
    show List.Sublist _
      (((((["Username contains many digits"] ++ ["Bio is very short or empty"]) ++
       ["No profile picture"]) ++ ["Recently created account"]) ++
       ["Unusual follower-to-following ratio"]) ++
       ["Bio contains suspicious keywords"])
    refine List.Sublist.append (List.Sublist.append (List.Sublist.append
      (List.Sublist.append (List.Sublist.append (rule_sublist _)
        (rule_sublist _)) (rule_sublist _)) (rule_sublist _))
      (rule_sublist _)) (rule_sublist _)
  · intro d
    show get_feature_explanation
      { username_length := ((8 : ℕ) : ℚ)
      , username_digits := ((4 : ℕ) : ℚ)
      , bio_length := ((0 : ℕ) : ℚ)
      , profile_pic := 0
      , followers := 1
      , following := 100
      , posts := (d.posts : ℚ)
      , account_age_days := 5
      , verified := 0
      , engagement_rate := d.engagement_rate
      , posting_frequency := d.posting_frequency } "" = _
    norm_num [get_feature_explanation, suspicious_keywords, substring_mem,
      str_lower, chars_substring, chars_prefix]

/-- C5: feature extraction is total — for every record and every value of
the pseudo-random draws it yields exactly 11 numeric features in the fixed
order and the bio string (the empty string when the bio is absent). -/
theorem C5_extract_total (p : ProfileRecord) (d : RandomDefaults) :
    ((extract_features p d).1.toList).length = 11 ∧
    (extract_features p d).2 = p.bio.getD "" := by
  exact ⟨rfl, rfl⟩

/-- The fitted sklearn artifacts held by `MLFakeAccountDetector` after
`train_model`: `scaler.transform` on one row, `tfidf_vectorizer.transform`
on one string (as a dense row), and the positive-class entry of
`profile_classifier.predict_proba`.  They are opaque total functions here;
`train_model`'s fitting computation is not re-implemented. -/
structure FittedArtifacts where
  scale : List ℚ → List ℚ
  vectorize : String → List ℚ
  positive_proba : List ℚ → ℚ

/-- A two-class `predict_proba` row of a random forest: the two class
probabilities sum to one, so the row is `[1 - p, p]` with `p` the
positive-class probability. -/
def predict_proba_row (clf : FittedArtifacts) (x : List ℚ) : List ℚ :=
  [1 - clf.positive_proba x, clf.positive_proba x]

/-- `np.max` on a nonempty array (`np.max` raises on an empty one; the
rows it is applied to here always have two entries). -/
def np_max : List ℚ → ℚ
  | [] => 0
  | x :: xs => xs.foldl max x

/-- The mutable state of `MLFakeAccountDetector`: the fitted artifacts (or
`none` before training, as `profile_classifier = None` in `__init__`) and
the `is_trained` flag. -/
structure DetectorState where
  classifier : Option FittedArtifacts
  is_trained : Bool

/-- The state built by `__init__`. -/
def initial_detector : DetectorState :=
  { classifier := none, is_trained := false }

/-- `MLFakeAccountDetector.train_model`: fits the artifacts on the synthetic
corpus and sets `is_trained`.  The fitting computation itself (sklearn) is
abstracted as the `fitted` argument; the state transition is the part
embedded from the source. -/
def train_model (fitted : FittedArtifacts) (_s : DetectorState) : DetectorState :=
  { classifier := some fitted, is_trained := true }

/-- The dictionary returned by `predict_fake_probability`. -/
structure AnalysisResult where
  fake_probability : ℚ
  risk_level : String
  confidence : ℚ
  features : Features
  explanation : List String
  deriving DecidableEq

/-- `MLFakeAccountDetector.predict_fake_probability`: trains first when
`is_trained` is false, extracts features, scales, vectorizes, concatenates,
and reads the classifier probabilities.  Returns the new state and the
result; `none` stands for the `AttributeError` Python would raise if the
classifier were still `None` at the `predict_proba` call. -/
def predict_fake_probability (fitted : FittedArtifacts) (s : DetectorState)
    (account_data : ProfileRecord) (rnd : RandomDefaults) :
    DetectorState × Option AnalysisResult :=
  let s' := if s.is_trained then s else train_model fitted s
  match s'.classifier with
  | none => (s', none)
  | some clf =>
    let fb := extract_features account_data rnd
    let feature_vector := fb.1.toList
    let feature_vector_scaled := clf.scale feature_vector
    let text_features := clf.vectorize fb.2
    let X_combined := feature_vector_scaled ++ text_features
    let fake_probability := clf.positive_proba X_combined
    (s', some
      { fake_probability := fake_probability
      , risk_level := get_risk_level fake_probability
      , confidence := np_max (predict_proba_row clf X_combined)
      , features := fb.1
      , explanation := get_feature_explanation fb.1 fb.2 })

/-- A concrete stand-in for the fitted sklearn artifacts, used to
instantiate theorems at closed inputs. -/
def sample_fitted : FittedArtifacts :=
  { scale := fun v => v
  , vectorize := fun _ => []
  , positive_proba := fun _ => 1/2 }

/-- A request payload with every optional field absent. -/
def empty_profile : ProfileRecord :=
  ⟨none, none, none, none, none, none, none, none, none, none⟩

/-- One concrete choice of the pseudo-random draws (all at the low end of
their ranges). -/
def unit_defaults : RandomDefaults := ⟨0, 0, 0, 1, 0, 0⟩

/-- C2 counterexample: invoking `predict_fake_probability` on the freshly
constructed detector (`is_trained` false, no fitted parameters) does not
signal any error — it trains and proceeds to return a result. -/
theorem C2_untrained_scoring_counterexample :
    ((predict_fake_probability sample_fitted initial_detector
        empty_profile unit_defaults).2).isSome = true ∧
    (predict_fake_probability sample_fitted initial_detector
        empty_profile unit_defaults).1.is_trained = true := by
  exact ⟨rfl, rfl⟩

/-- C2 amended: when scoring is invoked with `is_trained` false the
detector does not signal a NotTrained error; it synchronously trains
(leaving `is_trained` true) and proceeds to produce a result. -/
theorem C2_untrained_scoring_trains_instead (fitted : FittedArtifacts)
    (c : Option FittedArtifacts) (p : ProfileRecord) (d : RandomDefaults) :
    (predict_fake_probability fitted ⟨c, false⟩ p d).1.is_trained = true ∧
    ((predict_fake_probability fitted ⟨c, false⟩ p d).2).isSome = true := by
  exact ⟨rfl, rfl⟩

/-- C7: from any state whose `is_trained` flag truthfully reflects the
presence of fitted parameters, scoring always returns a result, and when
the state was untrained the returned state is exactly the trained one
(training ran synchronously inside the call). -/
theorem C7_analyze_always_produces_result (fitted : FittedArtifacts)
    (s : DetectorState) (p : ProfileRecord) (d : RandomDefaults)
    (hinv : s.is_trained = true → s.classifier.isSome = true) :
    ((predict_fake_probability fitted s p d).2).isSome = true ∧
    (s.is_trained = false →
      (predict_fake_probability fitted s p d).1 = train_model fitted s) := by
  rcases s with ⟨c, t⟩
  cases t
  · exact ⟨rfl, fun _ => rfl⟩
  · rcases c with _ | clf
    · have : (none : Option FittedArtifacts).isSome = true := hinv rfl
      simp at this
    · refine ⟨rfl, fun h => ?_⟩
      simp at h

/-- Witness for C7 on a concrete trained state. -/
theorem C7_analyze_always_produces_result_witness :
    ((predict_fake_probability sample_fitted ⟨some sample_fitted, true⟩
        empty_profile unit_defaults).2).isSome = true :=
  (C7_analyze_always_produces_result sample_fitted ⟨some sample_fitted, true⟩
    empty_profile unit_defaults (fun _ => rfl)).1

/-- Any result returned by `predict_fake_probability` reports as its
confidence the maximum entry of the two-class probability row
`[1 - p, p]`. -/
theorem predict_result_confidence (fitted : FittedArtifacts)
    (s : DetectorState) (p : ProfileRecord) (d : RandomDefaults)
    (r : AnalysisResult)
    (hr : (predict_fake_probability fitted s p d).2 = some r) :
    r.confidence = max (1 - r.fake_probability) r.fake_probability := by
  rcases s with ⟨c, t⟩
  cases t
  · have h := Option.some.inj hr
    subst h
    rfl
  · rcases c with _ | clf
    · exact Option.noConfusion (show (none : Option AnalysisResult) = some r from hr)
    · have h := Option.some.inj hr
      subst h
      rfl

/-- C10: for every returned scoring result, the confidence equals the
maximum of the two class posteriors, hence lies in [1/2, 1] whenever the
classifier probability lies in [0, 1]. -/
theorem C10_confidence_is_max_posterior (fitted : FittedArtifacts)
    (s : DetectorState) (p : ProfileRecord) (d : RandomDefaults)
    (r : AnalysisResult)
    (hr : (predict_fake_probability fitted s p d).2 = some r)
    (h0 : 0 ≤ r.fake_probability) (h1 : r.fake_probability ≤ 1) :
    r.confidence = max r.fake_probability (1 - r.fake_probability) ∧
    1/2 ≤ r.confidence ∧ r.confidence ≤ 1 := by
  have h := predict_result_confidence fitted s p d r hr
  refine ⟨by rw [h, max_comm], ?_, ?_⟩
  · rw [h]
    rcases le_total r.fake_probability (1/2) with hle | hle
    · exact le_max_of_le_left (by linarith)
    · exact le_max_of_le_right hle
  · rw [h]
    exact max_le (by linarith) h1

/-- The result `predict_fake_probability` produces for `empty_profile`,
`unit_defaults` and the `sample_fitted` artifacts. -/
def sample_result : AnalysisResult :=
  { fake_probability := 1/2
  , risk_level := "medium"
  , confidence := 1/2
  , features :=
      { username_length := 0, username_digits := 0, bio_length := 0
      , profile_pic := 0, followers := 0, following := 0, posts := 0
      , account_age_days := 1, verified := 0, engagement_rate := 0
      , posting_frequency := 0 }
  , explanation := ["Bio is very short or empty", "No profile picture",
      "Recently created account"] }

/-- Witness for C10 on a concrete scoring call. -/
theorem C10_confidence_is_max_posterior_witness :
    sample_result.confidence =
      max sample_result.fake_probability (1 - sample_result.fake_probability) ∧
    1/2 ≤ sample_result.confidence ∧ sample_result.confidence ≤ 1 := by
  have hr : (predict_fake_probability sample_fitted initial_detector
      empty_profile unit_defaults).2 = some sample_result := by
    simp [predict_fake_probability, extract_features, empty_profile,
      unit_defaults, sample_fitted, sample_result, initial_detector,
      train_model, predict_proba_row, np_max, get_risk_level,
      get_feature_explanation, suspicious_keywords, substring_mem, str_lower,
      chars_substring, chars_prefix, Features.toList]
    norm_num
  exact C10_confidence_is_max_posterior sample_fitted initial_detector
    empty_profile unit_defaults sample_result hr
    (by norm_num [sample_result]) (by norm_num [sample_result])

/-- Lowercase hexadecimal digit, as produced by json.dumps escapes. -/
def hex_digit (n : ℕ) : Char :=
  if n < 10 then Char.ofNat (48 + n) else Char.ofNat (87 + n)

/-- Four-digit lowercase hexadecimal form of a code point (BMP range). -/
def hex4 (n : ℕ) : String :=
  String.mk [hex_digit (n / 4096 % 16), hex_digit (n / 256 % 16),
             hex_digit (n / 16 % 16), hex_digit (n % 16)]

/-- json.dumps escaping of one character with Python's default settings
(ensure_ascii true): quote and backslash get a backslash, the usual
control shortcuts apply, other control or non-ASCII code points become
a four-digit unicode escape. -/
def json_escape_char (c : Char) : String :=
  if c = '"' then "\\\""
  else if c = '\\' then "\\\\"
  else if c = '\n' then "\\n"
  else if c = '\t' then "\\t"
  else if c = '\r' then "\\r"
  else if c.toNat = 8 then "\\b"
  else if c.toNat = 12 then "\\f"
  else if c.toNat < 32 ∨ c.toNat > 126 then "\\u" ++ hex4 c.toNat
  else String.singleton c

/-- json.dumps of a Python string. -/
def json_dump_string (s : String) : String :=
  "\"" ++ String.join (s.toList.map json_escape_char) ++ "\""

/-- json.dumps of a Python list of strings (default separator ", "). -/
def json_dumps_str_list (l : List String) : String :=
  "[" ++ String.intercalate ", " (l.map json_dump_string) ++ "]"

/-- The argument tuple `analyze_account` passes to
`BlockchainManager.record_to_blockchain`. -/
structure LedgerCall where
  platform : String
  username : String
  risk_score : ℚ
  evidence : String
  deriving DecidableEq

/-- The conditional ledger write in the `/api/analyze` route: after the
analysis, `record_to_blockchain` is called exactly when
`fake_probability >= 0.4`, with the platform, the username, the
probability, and `json.dumps` of the explanation list. -/
def analyze_blockchain_call (platform username : String)
    (analysis_result : AnalysisResult) : Option LedgerCall :=
  if analysis_result.fake_probability ≥ 4/10 then
    some { platform := platform
         , username := username
         , risk_score := analysis_result.fake_probability
         , evidence := json_dumps_str_list analysis_result.explanation }
  else none

/-- C6: the ledger write happens iff the fake probability is at least 0.4
(the medium-tier boundary of the risk mapper: iff the tier is not low);
when it happens it receives the platform, username, probability and the
serialized explanation, and below 0.4 no write occurs. -/
theorem C6_ledger_write_iff_threshold (platform username : String)
    (r : AnalysisResult) :
    ((analyze_blockchain_call platform username r).isSome = true ↔
      4/10 ≤ r.fake_probability) ∧
    (4/10 ≤ r.fake_probability →
      analyze_blockchain_call platform username r =
        some ⟨platform, username, r.fake_probability,
              json_dumps_str_list r.explanation⟩) ∧
    (r.fake_probability < 4/10 →
      analyze_blockchain_call platform username r = none) ∧
    ((analyze_blockchain_call platform username r).isSome = true ↔
      get_risk_level r.fake_probability ≠ "low") := by
  by_cases h : (4/10 : ℚ) ≤ r.fake_probability
  · refine ⟨by simp [analyze_blockchain_call, ge_iff_le, h],
      fun _ => by simp [analyze_blockchain_call, ge_iff_le, h],
      fun hlt => absurd h (not_le.mpr hlt), ?_⟩
    have : get_risk_level r.fake_probability ≠ "low" := by
      by_cases h7 : (7/10 : ℚ) ≤ r.fake_probability
      · simp [get_risk_level, ge_iff_le, h7]
      · simp [get_risk_level, ge_iff_le, h7, h]
    simp [analyze_blockchain_call, ge_iff_le, h, this]
  · have hlevel : get_risk_level r.fake_probability = "low" := by
      have h7 : ¬ (7/10 : ℚ) ≤ r.fake_probability := fun hc =>
        h (le_trans (by norm_num) hc)
      simp [get_risk_level, ge_iff_le, h7, h]
    refine ⟨by simp [analyze_blockchain_call, ge_iff_le, h],
      fun hc => absurd hc h,
      fun _ => by simp [analyze_blockchain_call, ge_iff_le, h], ?_⟩
    simp [analyze_blockchain_call, ge_iff_le, h, hlevel]

/-- Witness for C6: a medium-risk result is recorded with its payload. -/
theorem C6_ledger_write_iff_threshold_witness :
    analyze_blockchain_call "instagram" "someuser" sample_result =
      some ⟨"instagram", "someuser", sample_result.fake_probability,
            json_dumps_str_list sample_result.explanation⟩ :=
  (C6_ledger_write_iff_threshold "instagram" "someuser" sample_result).2.1
    (by norm_num [sample_result])

/-- A request payload identical across two analyze calls, with
`account_age_days` left unfilled so that each call substitutes its own
pseudo-random draw for it. -/
def c8_profile : ProfileRecord :=
  { username := some "person"
  , bio := some "abcdefghijklmnopqrstu"
  , profile_picture := some true
  , followers := some 100
  , following := some 100
  , posts := some 5
  , account_age_days := none
  , verified := some false
  , engagement_rate := some (1/100)
  , posting_frequency := some 1 }

/-- The age draw of the first call. -/
def c8_first_draw : RandomDefaults := ⟨10, 10, 10, 5, 1/100, 1⟩

/-- The age draw of the second call. -/
def c8_second_draw : RandomDefaults := ⟨10, 10, 10, 200, 5/100, 1⟩

/-- C8 counterexample: two analyze calls on the same detector with the
byte-identical ProfileRecord, no retrain in between, both pseudo-random
draws inside their documented ranges, yet the returned explanations
differ (the drawn account age feeds rule 4 of the explanation
generator), refuting byte-identical results. -/
theorem C8_idempotence_counterexample :
    DefaultsValid c8_first_draw ∧ DefaultsValid c8_second_draw ∧
    Option.map AnalysisResult.explanation
      (predict_fake_probability sample_fitted initial_detector
        c8_profile c8_first_draw).2 ≠
    Option.map AnalysisResult.explanation
      (predict_fake_probability sample_fitted
        (predict_fake_probability sample_fitted initial_detector
          c8_profile c8_first_draw).1
        c8_profile c8_second_draw).2 := by
  refine ⟨by norm_num [DefaultsValid, c8_first_draw],
    by norm_num [DefaultsValid, c8_second_draw], ?_⟩
  simp [predict_fake_probability, extract_features, c8_profile,
    c8_first_draw, c8_second_draw, sample_fitted, initial_detector,
    train_model, predict_proba_row, np_max, get_risk_level,
    get_feature_explanation, suspicious_keywords, substring_mem, str_lower,
    chars_substring, chars_prefix, Features.toList]
  norm_num

/-- C8 amended: when the six randomizable fields are all supplied in the
record, one scoring call is a pure function of the record and the state —
the pseudo-random draws do not influence any part of the result. -/
theorem C8_deterministic_when_fields_present (fitted : FittedArtifacts)
    (s : DetectorState) (p : ProfileRecord) (d1 d2 : RandomDefaults)
    (hf : p.followers.isSome = true) (hg : p.following.isSome = true)
    (hp : p.posts.isSome = true) (ha : p.account_age_days.isSome = true)
    (he : p.engagement_rate.isSome = true)
    (hq : p.posting_frequency.isSome = true) :
    predict_fake_probability fitted s p d1 =
    predict_fake_probability fitted s p d2 := by
  have hex : extract_features p d1 = extract_features p d2 := by
    rcases p with ⟨u, b, pic, f, g, po, a, v, e, q⟩
    rcases f with _ | f
    · simp at hf
    rcases g with _ | g
    · simp at hg
    rcases po with _ | po
    · simp at hp
    rcases a with _ | a
    · simp at ha
    rcases e with _ | e
    · simp at he
    rcases q with _ | q
    · simp at hq
    rfl
  unfold predict_fake_probability
  rw [hex]

/-- A request payload with every field supplied. -/
def full_profile : ProfileRecord :=
  { username := some "real_person_42"
  , bio := some "software engineer"
  , profile_picture := some true
  , followers := some 340
  , following := some 210
  , posts := some 87
  , account_age_days := some 900
  , verified := some false
  , engagement_rate := some (1/25)
  , posting_frequency := some 2 }

/-- Witness for the amended C8 on a fully supplied record and two very
different draw vectors. -/
theorem C8_deterministic_when_fields_present_witness :
    predict_fake_probability sample_fitted initial_detector full_profile
      unit_defaults =
    predict_fake_probability sample_fitted initial_detector full_profile
      ⟨999, 1999, 99, 364, 0, 19⟩ :=
  C8_deterministic_when_fields_present sample_fitted initial_detector
    full_profile unit_defaults ⟨999, 1999, 99, 364, 0, 19⟩
    rfl rfl rfl rfl rfl rfl

/-- C9: whenever one of the six randomizable fields is absent, the feature
that replaces it stays inside the documented range — followers 0–1000,
following 0–2000, posts 0–100, account age 1–365, engagement rate 0–0.1,
posting frequency 0–20 — for every draw the numpy generators can
produce. -/
theorem C9_default_ranges (p : ProfileRecord) (d : RandomDefaults)
    (hd : DefaultsValid d) :
    (p.followers = none →
      0 ≤ (extract_features p d).1.followers ∧
      (extract_features p d).1.followers ≤ 1000) ∧
    (p.following = none →
      0 ≤ (extract_features p d).1.following ∧
      (extract_features p d).1.following ≤ 2000) ∧
    (p.posts = none →
      0 ≤ (extract_features p d).1.posts ∧
      (extract_features p d).1.posts ≤ 100) ∧
    (p.account_age_days = none →
      1 ≤ (extract_features p d).1.account_age_days ∧
      (extract_features p d).1.account_age_days ≤ 365) ∧
    (p.engagement_rate = none →
      0 ≤ (extract_features p d).1.engagement_rate ∧
      (extract_features p d).1.engagement_rate ≤ 1/10) ∧
    (p.posting_frequency = none →
      0 ≤ (extract_features p d).1.posting_frequency ∧
      (extract_features p d).1.posting_frequency ≤ 20) := by
  obtain ⟨h1, h2, h3, h4, h5, h6, h7, h8, h9, h10, h11, h12⟩ := hd
  refine ⟨fun h => ?_, fun h => ?_, fun h => ?_, fun h => ?_,
    fun h => ?_, fun h => ?_⟩
  · simp only [extract_features, h, Option.getD_none]
    exact ⟨by exact_mod_cast h1, by exact_mod_cast h2.le⟩
  · simp only [extract_features, h, Option.getD_none]
    exact ⟨by exact_mod_cast h3, by exact_mod_cast h4.le⟩
  · simp only [extract_features, h, Option.getD_none]
    exact ⟨by exact_mod_cast h5, by exact_mod_cast h6.le⟩
  · simp only [extract_features, h, Option.getD_none]
    exact ⟨by exact_mod_cast h7, by exact_mod_cast h8.le⟩
  · simp only [extract_features, h, Option.getD_none]
    exact ⟨h9, h10.le⟩
  · simp only [extract_features, h, Option.getD_none]
    exact ⟨h11, h12.le⟩

/-- Witness for C9: the all-absent record with a concrete valid draw. -/
theorem C9_default_ranges_witness :
    0 ≤ (extract_features empty_profile unit_defaults).1.followers ∧
    (extract_features empty_profile unit_defaults).1.followers ≤ 1000 :=
  (C9_default_ranges empty_profile unit_defaults
    (by norm_num [DefaultsValid, unit_defaults])).1 rfl
